import Mathlib

/-!
# AlarmTag (ESP32): session, policy and PIN state machine

A shallow embedding of `src/main.cpp`.  The global variables of the sketch
(`flags`, `is_alarm_enable`, `is_auth`, `saved_pin`, `config`) become the
fields of `Device`; every BLE callback becomes a function `Device → Device`.

Modelling conventions
* a `std::string` / BLE payload is a list of bytes (`Bytes`), each byte a `Nat`;
* `uint64_t flags` is a `Nat`; the masks are built as the source builds them,
  from 32-bit `int` expressions converted to 64 bits (`u64_of_int`);
* the `Preferences` store is a finite map from key names to values, with
  `put*`, `get*`, `isKey`, `remove` always succeeding;
* GPIO, hardware timers, advertising and the serial log are not modelled;
  `notify()` is counted in `notify_count`, `setValue` writes `policy_value`.
-/

namespace AlarmTag

/-- A byte string (`std::string`, BLE payload, C string). -/
abbrev Bytes := List Nat

/-- The bytes of an ASCII string literal of the source. -/
def str (s : String) : Bytes := s.toList.map Char.toNat

/-- Source `std::string::c_str()` read as a C string: the bytes before the first zero byte. -/
def c_str (d : Bytes) : Bytes := d.takeWhile (fun b => b != 0)

/-- Does `d` begin with `needle`? -/
def beginsWith : Bytes → Bytes → Bool
  | _, [] => true
  | [], _ :: _ => false
  | b :: d, n :: needle => b == n && beginsWith d needle

/-- Source `std::string::find(needle)`: the first position at which `needle` occurs in `d`,
`none` standing for `std::string::npos`. -/
def find : Bytes → Bytes → Option Nat
  | [], needle => if beginsWith [] needle then some 0 else none
  | b :: d, needle =>
    if beginsWith (b :: d) needle then some 0 else (find d needle).map (· + 1)

/-- Source `data.find(needle) != std::string::npos`. -/
def found (d : Bytes) (needle : String) : Bool := (find d (str needle)).isSome

/-! ## Preferences (non-volatile key/value store) -/

/-- A value held under a key of the store. -/
inductive PrefValue
  | u64 (n : Nat)
  | string (b : Bytes)
  deriving DecidableEq, Repr

/-- The `Preferences` namespace "alarmtag": key name ↦ value, `none` when the key is absent. -/
abbrev Preferences := String → Option PrefValue

namespace Preferences

/-- A store holding no key (first boot). -/
def empty : Preferences := fun _ => none

/-- Source `config.isKey(key)`. -/
def isKey (c : Preferences) (key : String) : Bool := (c key).isSome

/-- Source `config.remove(key)`. -/
def remove (c : Preferences) (key : String) : Preferences :=
  fun k => if k = key then none else c k

/-- Source `config.putString(key, value)`; `value` is a C string. -/
def putString (c : Preferences) (key : String) (value : Bytes) : Preferences :=
  fun k => if k = key then some (PrefValue.string value) else c k

/-- Source `config.getString(key)`: the stored C string, the empty string when the key is
absent or holds another type. -/
def getString (c : Preferences) (key : String) : Bytes :=
  match c key with
  | some (PrefValue.string b) => c_str b
  | _ => []

/-- Source `config.putULong64(key, value)`. -/
def putULong64 (c : Preferences) (key : String) (value : Nat) : Preferences :=
  fun k => if k = key then some (PrefValue.u64 value) else c k

/-- Source `config.getULong64(key, defaultValue)`. -/
def getULong64 (c : Preferences) (key : String) (defaultValue : Nat) : Nat :=
  match c key with
  | some (PrefValue.u64 n) => n
  | _ => defaultValue

end Preferences

/-! ## Machine arithmetic on the flags word -/

/-- Source `a << k` on 32-bit `int` (no overflow for the shifts of the source, `k ≤ 1`). -/
def shl (a : Int) (k : Nat) : Int := a * 2 ^ k

/-- Source `~a` on `int` (two's complement). -/
def bnot (a : Int) : Int := -a - 1

/-- Conversion of an `int` to `uint64_t` (sign extension, value modulo `2^64`). -/
def u64_of_int (a : Int) : Nat := (a % 2 ^ 64).toNat

/-- Source `(flags >> n) & 1U`. -/
def bit (flags : Nat) (n : Nat) : Nat := (flags >>> n) &&& 1

/-! ## Global state -/

/-- The global variables of the sketch, the store, and what the Alert-Policy-Config
characteristic shows to the outside. -/
structure Device where
  /-- Source `uint64_t flags`: bit 0 alarm-on-disconnect, bit 1 device-lock. -/
  flags : Nat
  /-- Source `bool is_alarm_enable`. -/
  is_alarm_enable : Bool
  /-- Source `bool is_auth`. -/
  is_auth : Bool
  /-- Source `std::string saved_pin`. -/
  saved_pin : Bytes
  /-- Source `Preferences config`. -/
  config : Preferences
  /-- Value of the Alert-Policy-Config characteristic (`setValue` / `getValue`). -/
  policy_value : Bytes
  /-- Number of `notify()` calls made so far on Alert-Policy-Config. -/
  notify_count : Nat

/-- Source `start_alarm()`. -/
def start_alarm (s : Device) : Device := { s with is_alarm_enable := true }

/-- Source `end_alarm()`. -/
def end_alarm (s : Device) : Device := { s with is_alarm_enable := false }

/-- Source `flag_text(flag)`: the body reads the global `flags` (first argument here), not its
parameter `flag`. -/
def flag_text (flags : Nat) (_flag : Nat) : Bytes :=
  let result : Bytes := []
  let result := if bit flags 0 == 0 then result ++ str "alarm-on-disconnect:0;" else result
  let result := if bit flags 0 == 1 then result ++ str "alarm-on-disconnect:1;" else result
  let result := if bit flags 1 == 0 then result ++ str "device-lock:0;" else result
  let result := if bit flags 1 == 1 then result ++ str "device-lock:1;" else result
  result

/-! ## Callbacks -/

/-- Source `CustomBLEServerCallbacks::onConnect`. -/
def onConnect (s : Device) : Device :=
  if bit s.flags 1 == 0 || !s.config.isKey "device-pin" then
    { s with is_auth := true }
  else s

/-- Source `CustomBLEServerCallbacks::onDisconnect`. -/
def onDisconnect (s : Device) : Device :=
  let s := if bit s.flags 0 == 1 then start_alarm s else s
  { s with is_auth := false }

/-- Lines 145–149 of `AlertPolicyCallbacks::onWrite`: publish, notify, persist. -/
def publish (s : Device) : Device :=
  { s with
    policy_value := flag_text s.flags s.flags
    notify_count := s.notify_count + 1
    config := s.config.putULong64 "flags" s.flags }

/-- Lines 122–128 of `AlertPolicyCallbacks::onWrite`: the alarm-on-disconnect bit. -/
def applyAlarmOnDisconnect (s : Device) (data : Bytes) : Device :=
  if bit s.flags 0 == 1 && found data "alarm-on-disconnect:0" then
    { s with flags := s.flags &&& u64_of_int (bnot (shl 1 0)) }
  else if bit s.flags 0 == 0 && found data "alarm-on-disconnect:1" then
    { s with flags := s.flags ||| u64_of_int (shl 1 0) }
  else s

/-- Source `AlertPolicyCallbacks::onWrite`, `data` being the written value. -/
def AlertPolicyCallbacks.onWrite (s : Device) (data : Bytes) : Device :=
  if !s.is_auth then s
  else
    let s := applyAlarmOnDisconnect s data
    if bit s.flags 1 == 1 && found data "device-lock:0" then
      let s := if s.config.isKey "device-pin"
        then { s with config := s.config.remove "device-pin" } else s
      publish { s with flags := s.flags &&& u64_of_int (bnot (shl 1 1)) }
    else if bit s.flags 1 == 0 && found data "device-lock:1" then
      if s.saved_pin.isEmpty then s
      else
        let s := { s with config := s.config.putString "device-pin" (c_str s.saved_pin) }
        publish { s with flags := s.flags ||| u64_of_int (shl 1 1) }
    else publish s

/-- Source `AlertPolicyCallbacks::onRead`. -/
def AlertPolicyCallbacks.onRead (s : Device) : Device :=
  { s with policy_value := flag_text s.flags s.flags }

/-- Source `ToggleAlertCallbacks::onWrite`. -/
def ToggleAlertCallbacks.onWrite (s : Device) (data : Bytes) : Device :=
  if !s.is_auth then s
  else
    match data with
    | [b] =>
      if b == 49 || b == 1 then
        if !s.is_alarm_enable then start_alarm s else end_alarm s
      else s
    | _ => s

/-- Source `PINAuthCallbacks::onWrite`; `String::equals(const char*)` compares C strings. -/
def PINAuthCallbacks.onWrite (s : Device) (data : Bytes) : Device :=
  let s :=
    if !s.is_auth then
      if s.config.getString "device-pin" == c_str data then { s with is_auth := true } else s
    else s
  if !data.isEmpty then { s with saved_pin := data } else s

/-- The part of `setup()` that touches the modelled state, run on a power-up with
store `c`: globals take their initial values, `flags` is loaded from the store. -/
def setup (c : Preferences) (notified : Nat) : Device :=
  let flags := c.getULong64 "flags" 1
  { flags := flags
    is_alarm_enable := false
    is_auth := false
    saved_pin := []
    config := c
    policy_value := flag_text flags flags
    notify_count := notified }

/-! ## Events -/

/-- What the BLE stack (or a power cycle) delivers to the sketch. -/
inductive Event
  | connect
  | disconnect
  | writePolicy (data : Bytes)
  | readPolicy
  | writeAlert (data : Bytes)
  | writePin (data : Bytes)
  | reboot

/-- One event, fully processed.  A write first stores the payload as the value of the
characteristic written to, then runs the callback. -/
def step (s : Device) : Event → Device
  | Event.connect => onConnect s
  | Event.disconnect => onDisconnect s
  | Event.writePolicy d => AlertPolicyCallbacks.onWrite { s with policy_value := d } d
  | Event.readPolicy => AlertPolicyCallbacks.onRead s
  | Event.writeAlert d => ToggleAlertCallbacks.onWrite s d
  | Event.writePin d => PINAuthCallbacks.onWrite s d
  | Event.reboot => setup s.config s.notify_count

/-- A sequence of events, oldest first. -/
def run (s : Device) (es : List Event) : Device := es.foldl step s

/-- Power-up with an empty store. -/
def boot : Device := setup Preferences.empty 0

/-- The persisted flags word: what `setup()` would load (key "flags", default `0b1`). -/
def persistedFlags (s : Device) : Nat := s.config.getULong64 "flags" 1

/-- The StoredSecret: the value under key "device-pin", if any. -/
def storedSecret (s : Device) : Option PrefValue := s.config "device-pin"

/-- The payload `d` contains the literal `kw` as a substring. -/
def Contains (d : Bytes) (kw : String) : Prop := ∃ a b, d = a ++ str kw ++ b

/-! ## States and traces used as concrete inputs -/

/-- A device locked with the secret "1234", its controller gone. -/
def lockedWith1234 : Device :=
  run boot [Event.connect, Event.writePin (str "1234"),
    Event.writePolicy (str "device-lock:1"), Event.disconnect]

/-- The device right after first boot and a connect: authorized, flags `0b01`,
no secret staged. -/
def connectedFresh : Device := run boot [Event.connect]

/-- An authorized device with the staged secret "1234", lock not yet enabled. -/
def stagedWith1234 : Device := run boot [Event.connect, Event.writePin (str "1234")]

/-- The events by which a controller enables the lock after staging the one-byte
secret `0x00`. -/
def lockWithZeroByte : List Event :=
  [Event.connect, Event.writePin [0], Event.writePolicy (str "device-lock:1")]

/-- Whenever the device-lock bit is set, in memory or in the persisted flags, key
"device-pin" is present. -/
def LockInv (s : Device) : Prop :=
  (bit s.flags 1 = 1 → storedSecret s ≠ none) ∧
  (bit (persistedFlags s) 1 = 1 → storedSecret s ≠ none)

/-- An authorized device on which the lock has just been enabled with "1234". -/
def lockedAuthorized : Device :=
  run boot [Event.connect, Event.writePin (str "1234"),
    Event.writePolicy (str "device-lock:1")]

/-- The write events: a value written to one of the three characteristics. -/
def Event.isWrite : Event → Bool
  | Event.writePolicy _ => true
  | Event.writeAlert _ => true
  | Event.writePin _ => true
  | _ => false

/-- The end-to-end scenario: connect, a lock request without a PIN, the PIN "9999",
the lock request again, disconnect. -/
def endToEnd : List Event :=
  [Event.connect, Event.writePolicy (str "device-lock:1"), Event.writePin (str "9999"),
    Event.writePolicy (str "device-lock:1"), Event.disconnect]

/-- A controller that, right after first boot, asks in one write to switch
alarm-on-disconnect off and the lock on, without having staged a PIN. -/
def rejectedCombinedWrite : List Event :=
  [Event.connect, Event.writePolicy (str "alarm-on-disconnect:0;device-lock:1")]

/-! ## Basic facts about the embedding -/

theorem beginsWith_iff (d n : Bytes) : beginsWith d n = true ↔ ∃ b, d = n ++ b := by
  induction n generalizing d with
  | nil => simp [beginsWith]
  | cons x n ih =>
    cases d with
    | nil => simp [beginsWith]
    | cons y d =>
      simp only [beginsWith, Bool.and_eq_true, beq_iff_eq, ih, List.cons_append,
        List.cons.injEq]
      constructor
      · rintro ⟨rfl, b, rfl⟩
        exact ⟨b, rfl, rfl⟩
      · rintro ⟨b, rfl, rfl⟩
        exact ⟨rfl, b, rfl⟩

theorem find_isSome_iff (d n : Bytes) :
    (find d n).isSome = true ↔ ∃ a b, d = a ++ n ++ b := by
  induction d with
  | nil =>
    have hb := beginsWith_iff [] n
    by_cases h : beginsWith [] n = true
    · obtain ⟨b, hb⟩ := hb.mp h
      simp only [find, h, if_true, Option.isSome_some, true_iff]
      exact ⟨[], b, by simpa using hb⟩
    · simp only [find, h, if_false, Option.isSome_none, Bool.false_eq_true, false_iff]
      rintro ⟨a, b, hab⟩
      apply h
      rw [hb]
      have ha : a = [] := by
        cases a with
        | nil => rfl
        | cons x a => simp at hab
      subst ha
      exact ⟨b, by simpa using hab⟩
  | cons x d ih =>
    by_cases h : beginsWith (x :: d) n = true
    · obtain ⟨b, hb⟩ := (beginsWith_iff _ _).mp h
      simp only [find, h, if_true, Option.isSome_some, true_iff]
      exact ⟨[], b, by simpa using hb⟩
    · simp only [find, h, Option.isSome_map', ih, Bool.false_eq_true, if_false]
      constructor
      · rintro ⟨a, b, rfl⟩
        exact ⟨x :: a, b, by simp⟩
      · rintro ⟨a, b, hab⟩
        cases a with
        | nil =>
          exact absurd ((beginsWith_iff _ _).mpr ⟨b, by simpa using hab⟩) h
        | cons y a =>
          simp only [List.cons_append, List.cons.injEq] at hab
          exact ⟨a, b, hab.2⟩

theorem found_iff (d : Bytes) (kw : String) : found d kw = true ↔ Contains d kw :=
  find_isSome_iff d (str kw)

theorem bit_eq_toNat (f n : Nat) : bit f n = (f.testBit n).toNat := by
  unfold bit
  rw [Nat.toNat_testBit, Nat.and_one_is_mod, Nat.shiftRight_eq_div_pow]

theorem bit_land (f m n : Nat) : bit (f &&& m) n = (f.testBit n && m.testBit n).toNat := by
  rw [bit_eq_toNat, Nat.testBit_land]

theorem bit_lor (f m n : Nat) : bit (f ||| m) n = (f.testBit n || m.testBit n).toNat := by
  rw [bit_eq_toNat, Nat.testBit_lor]

theorem bit_cases (f n : Nat) : bit f n = 0 ∨ bit f n = 1 := by
  rw [bit_eq_toNat]
  cases f.testBit n <;> simp

theorem mask_clear0 : u64_of_int (bnot (shl 1 0)) = 18446744073709551614 := by decide

theorem mask_clear1 : u64_of_int (bnot (shl 1 1)) = 18446744073709551613 := by decide

theorem mask_set0 : u64_of_int (shl 1 0) = 1 := by decide

theorem mask_set1 : u64_of_int (shl 1 1) = 2 := by decide

theorem bit1_clear0 (f : Nat) : bit (f &&& u64_of_int (bnot (shl 1 0))) 1 = bit f 1 := by
  have h : Nat.testBit 18446744073709551614 1 = true := by decide
  rw [mask_clear0, bit_land, bit_eq_toNat, h, Bool.and_true]

theorem bit1_set0 (f : Nat) : bit (f ||| u64_of_int (shl 1 0)) 1 = bit f 1 := by
  have h : Nat.testBit 1 1 = false := by decide
  rw [mask_set0, bit_lor, bit_eq_toNat, h, Bool.or_false]

theorem bit1_clear1 (f : Nat) : bit (f &&& u64_of_int (bnot (shl 1 1))) 1 = 0 := by
  have h : Nat.testBit 18446744073709551613 1 = false := by decide
  rw [mask_clear1, bit_land, h, Bool.and_false]
  rfl

theorem bit1_set1 (f : Nat) : bit (f ||| u64_of_int (shl 1 1)) 1 = 1 := by
  have h : Nat.testBit 2 1 = true := by decide
  rw [mask_set1, bit_lor, h, Bool.or_true]
  rfl

/-! ### The alarm-on-disconnect step touches nothing but `flags`, and there only bit 0 -/

theorem applyAlarmOnDisconnect_bit1 (s : Device) (d : Bytes) :
    bit (applyAlarmOnDisconnect s d).flags 1 = bit s.flags 1 := by
  unfold applyAlarmOnDisconnect
  split
  · exact bit1_clear0 _
  · split
    · exact bit1_set0 _
    · rfl

theorem applyAlarmOnDisconnect_rest (s : Device) (d : Bytes) :
    (applyAlarmOnDisconnect s d).is_auth = s.is_auth ∧
    (applyAlarmOnDisconnect s d).is_alarm_enable = s.is_alarm_enable ∧
    (applyAlarmOnDisconnect s d).saved_pin = s.saved_pin ∧
    (applyAlarmOnDisconnect s d).config = s.config ∧
    (applyAlarmOnDisconnect s d).policy_value = s.policy_value ∧
    (applyAlarmOnDisconnect s d).notify_count = s.notify_count := by
  unfold applyAlarmOnDisconnect
  split
  · exact ⟨rfl, rfl, rfl, rfl, rfl, rfl⟩
  · split <;> exact ⟨rfl, rfl, rfl, rfl, rfl, rfl⟩

/-! ## Claims -/

/-- C1: an Alert-Policy-Config write received while `is_auth` is false leaves the
in-memory flags, the whole store (persisted flags and StoredSecret) and the
PendingSecret unchanged and makes no `notify()` call. -/
theorem C1_unauthorized_policy_write_ignored (s : Device) (d : Bytes)
    (h : s.is_auth = false) :
    (AlertPolicyCallbacks.onWrite s d).flags = s.flags ∧
    persistedFlags (AlertPolicyCallbacks.onWrite s d) = persistedFlags s ∧
    storedSecret (AlertPolicyCallbacks.onWrite s d) = storedSecret s ∧
    (AlertPolicyCallbacks.onWrite s d).config = s.config ∧
    (AlertPolicyCallbacks.onWrite s d).saved_pin = s.saved_pin ∧
    (AlertPolicyCallbacks.onWrite s d).notify_count = s.notify_count := by
  have hs : AlertPolicyCallbacks.onWrite s d = s := by
    simp [AlertPolicyCallbacks.onWrite, h]
  rw [hs]
  exact ⟨rfl, rfl, rfl, rfl, rfl, rfl⟩

/-- Witness of C1 on the freshly booted, not yet connected device. -/
theorem C1_unauthorized_policy_write_ignored_witness :
    boot.is_auth = false ∧
    (AlertPolicyCallbacks.onWrite boot (str "alarm-on-disconnect:0")).flags = boot.flags ∧
    (AlertPolicyCallbacks.onWrite boot (str "alarm-on-disconnect:0")).notify_count
      = boot.notify_count :=
  ⟨rfl, (C1_unauthorized_policy_write_ignored boot (str "alarm-on-disconnect:0") rfl).1,
    (C1_unauthorized_policy_write_ignored boot (str "alarm-on-disconnect:0") rfl).2.2.2.2.2⟩

/-- C2: on a connect event received while `is_auth` is false, `is_auth` becomes true
exactly when the device-lock bit is clear or key "device-pin" is absent; so a set
device-lock bit with a stored secret leaves it false, and a clear device-lock bit
makes it true whatever the store holds. -/
theorem C2_connect_authorization (s : Device) (h : s.is_auth = false) :
    ((onConnect s).is_auth = true ↔ (bit s.flags 1 = 0 ∨ storedSecret s = none)) ∧
    (bit s.flags 1 = 1 → storedSecret s ≠ none → (onConnect s).is_auth = false) ∧
    (bit s.flags 1 = 0 → (onConnect s).is_auth = true) := by
  have key : (onConnect s).is_auth = true ↔ (bit s.flags 1 = 0 ∨ storedSecret s = none) := by
    unfold onConnect storedSecret Preferences.isKey
    by_cases hb : bit s.flags 1 = 0
    · simp [hb]
    · by_cases hk : s.config "device-pin" = none
      · simp [hk]
      · have hk2 : (s.config "device-pin").isSome = true :=
          Option.isSome_iff_ne_none.mpr hk
        simp [hb, hk, hk2, h]
  refine ⟨key, ?_, ?_⟩
  · intro hb hk
    have : ¬ (onConnect s).is_auth = true := by
      rw [key]
      rintro (h0 | h0)
      · rw [hb] at h0
        exact absurd h0 (by decide)
      · exact hk h0
    simpa using this
  · intro hb
    exact key.mpr (Or.inl hb)

/-- Witness of C2: the freshly booted device (device-lock clear) authorizes on connect. -/
theorem C2_connect_authorization_witness :
    boot.is_auth = false ∧ (onConnect boot).is_auth = true :=
  ⟨rfl, (C2_connect_authorization boot rfl).2.2 (by decide)⟩

/-! ### PIN-Auth -/

theorem c_str_of_no_zero (d : Bytes) (h : 0 ∉ d) : c_str d = d := by
  unfold c_str
  rw [List.takeWhile_eq_self_iff]
  intro x hx
  have : x ≠ 0 := fun h0 => h (h0 ▸ hx)
  simpa using this

theorem PINAuth_is_auth (s : Device) (d : Bytes) :
    (PINAuthCallbacks.onWrite s d).is_auth =
      (s.is_auth || (s.config.getString "device-pin" == c_str d)) := by
  unfold PINAuthCallbacks.onWrite
  cases ha : s.is_auth <;> cases hm : (s.config.getString "device-pin" == c_str d) <;>
    cases hd : d.isEmpty <;> simp [ha, hm, hd]

theorem PINAuth_rest (s : Device) (d : Bytes) :
    (PINAuthCallbacks.onWrite s d).flags = s.flags ∧
    (PINAuthCallbacks.onWrite s d).is_alarm_enable = s.is_alarm_enable ∧
    (PINAuthCallbacks.onWrite s d).config = s.config ∧
    (PINAuthCallbacks.onWrite s d).policy_value = s.policy_value ∧
    (PINAuthCallbacks.onWrite s d).notify_count = s.notify_count := by
  unfold PINAuthCallbacks.onWrite
  cases ha : s.is_auth <;> cases hm : (s.config.getString "device-pin" == c_str d) <;>
    cases hd : d.isEmpty <;> simp [ha, hm, hd]

/-- C3, as stated, fails: against the StoredSecret "1234" the five-byte payload
"1234" followed by a zero byte authorizes the session although it differs from the
secret. -/
theorem C3_counterexample :
    lockedWith1234.is_auth = false ∧
    storedSecret lockedWith1234 = some (PrefValue.string (str "1234")) ∧
    (PINAuthCallbacks.onWrite lockedWith1234 (str "1234" ++ [0])).is_auth = true ∧
    str "1234" ++ [0] ≠ str "1234" := by
  decide

/-- C3 (amended): with `is_auth` false and a StoredSecret `sec`, a PIN-Auth write of `d`
authorizes exactly when `d` and `sec` agree as C strings (up to the first zero
byte); when neither holds a zero byte, exactly when `d = sec`. -/
theorem C3_pin_auth_compares_c_strings (s : Device) (sec d : Bytes)
    (h : s.is_auth = false)
    (hs : storedSecret s = some (PrefValue.string sec)) :
    ((PINAuthCallbacks.onWrite s d).is_auth = true ↔ c_str d = c_str sec) ∧
    (0 ∉ sec → 0 ∉ d → ((PINAuthCallbacks.onWrite s d).is_auth = true ↔ d = sec)) := by
  have hg : s.config.getString "device-pin" = c_str sec := by
    unfold storedSecret at hs
    unfold Preferences.getString
    rw [hs]
  have key : (PINAuthCallbacks.onWrite s d).is_auth = true ↔ c_str d = c_str sec := by
    rw [PINAuth_is_auth, h, hg, Bool.false_or, beq_iff_eq]
    exact eq_comm
  refine ⟨key, ?_⟩
  intro h1 h2
  rw [key, c_str_of_no_zero _ h1, c_str_of_no_zero _ h2]

/-- Witness of C3 (amended): the right PIN unlocks the device locked with "1234". -/
theorem C3_pin_auth_compares_c_strings_witness :
    lockedWith1234.is_auth = false ∧
    storedSecret lockedWith1234 = some (PrefValue.string (str "1234")) ∧
    ((PINAuthCallbacks.onWrite lockedWith1234 (str "1234")).is_auth = true
      ↔ c_str (str "1234") = c_str (str "1234")) :=
  ⟨by decide, by decide,
    (C3_pin_auth_compares_c_strings lockedWith1234 (str "1234") (str "1234")
      (by decide) (by decide)).1⟩

/-! ### Alert-Policy-Config writes by an authorized controller -/

/-- The rejected branch (line 136–139): a lock-enable request with an empty
PendingSecret returns right after the alarm-on-disconnect step. -/
theorem onWrite_enable_rejected (s : Device) (d : Bytes) (ha : s.is_auth = true)
    (hb : bit s.flags 1 = 0) (hp : s.saved_pin = []) (hd : Contains d "device-lock:1") :
    AlertPolicyCallbacks.onWrite s d = applyAlarmOnDisconnect s d := by
  have h1 := applyAlarmOnDisconnect_bit1 s d
  have h2 := (applyAlarmOnDisconnect_rest s d).2.2.1
  have hf := (found_iff d "device-lock:1").mpr hd
  unfold AlertPolicyCallbacks.onWrite
  simp only [ha, h1, hb, h2, hp, hf]
  rfl

/-- The accepted lock-enable branch (lines 140–149). -/
theorem onWrite_enable_accepted (s : Device) (d : Bytes) (ha : s.is_auth = true)
    (hb : bit s.flags 1 = 0) (hp : s.saved_pin ≠ []) (hd : Contains d "device-lock:1") :
    AlertPolicyCallbacks.onWrite s d =
      publish { applyAlarmOnDisconnect s d with
        config := s.config.putString "device-pin" (c_str s.saved_pin)
        flags := (applyAlarmOnDisconnect s d).flags ||| u64_of_int (shl 1 1) } := by
  have h1 := applyAlarmOnDisconnect_bit1 s d
  obtain ⟨_, _, h2, h3, _, _⟩ := applyAlarmOnDisconnect_rest s d
  have hf := (found_iff d "device-lock:1").mpr hd
  have he : s.saved_pin.isEmpty = false := by
    cases hsp : s.saved_pin with
    | nil => exact absurd hsp hp
    | cons x t => rfl
  unfold AlertPolicyCallbacks.onWrite
  simp only [ha, h1, hb, h2, h3, he, hf]
  rfl

/-- The lock-disable branch (lines 130–134, then 145–149). -/
theorem onWrite_disable (s : Device) (d : Bytes) (ha : s.is_auth = true)
    (hb : bit s.flags 1 = 1) (hd : Contains d "device-lock:0") :
    AlertPolicyCallbacks.onWrite s d =
      publish { applyAlarmOnDisconnect s d with
        config := if s.config.isKey "device-pin" then s.config.remove "device-pin"
          else s.config
        flags := (applyAlarmOnDisconnect s d).flags &&& u64_of_int (bnot (shl 1 1)) } := by
  have h1 := applyAlarmOnDisconnect_bit1 s d
  obtain ⟨_, _, _, h3, _, _⟩ := applyAlarmOnDisconnect_rest s d
  have hf := (found_iff d "device-lock:0").mpr hd
  unfold AlertPolicyCallbacks.onWrite
  simp only [ha, h1, hb, h3, hf]
  cases hk : s.config.isKey "device-pin" <;> simp [h3]

/-- C4 fails on the code: with flags `0b01`, no PendingSecret and the payload
"alarm-on-disconnect:0;device-lock:1", the handler clears bit 0 of the in-memory
flags before it rejects the lock request; nothing is persisted or notified, so the
store still says `0b01` while the device runs with `0b00`. -/
theorem C4_rejected_enable_changes_flags :
    connectedFresh.is_auth = true ∧ bit connectedFresh.flags 1 = 0 ∧
    connectedFresh.saved_pin = [] ∧
    Contains (str "alarm-on-disconnect:0;device-lock:1") "device-lock:1" ∧
    connectedFresh.flags = 1 ∧
    (AlertPolicyCallbacks.onWrite connectedFresh
      (str "alarm-on-disconnect:0;device-lock:1")).flags = 0 ∧
    persistedFlags (AlertPolicyCallbacks.onWrite connectedFresh
      (str "alarm-on-disconnect:0;device-lock:1")) = 1 ∧
    (AlertPolicyCallbacks.onWrite connectedFresh
      (str "alarm-on-disconnect:0;device-lock:1")).notify_count = 0 :=
  ⟨by decide, by decide, by decide, (found_iff _ _).mp (by decide), by decide, by decide,
    by decide, by decide⟩

/-- What the rejected lock-enable does keep: the store (persisted flags and
StoredSecret), the PendingSecret, the notification count and bit 1 of the flags. -/
theorem rejected_enable_keeps_store (s : Device) (d : Bytes) (ha : s.is_auth = true)
    (hb : bit s.flags 1 = 0) (hp : s.saved_pin = []) (hd : Contains d "device-lock:1") :
    (AlertPolicyCallbacks.onWrite s d).config = s.config ∧
    (AlertPolicyCallbacks.onWrite s d).saved_pin = s.saved_pin ∧
    (AlertPolicyCallbacks.onWrite s d).notify_count = s.notify_count ∧
    bit (AlertPolicyCallbacks.onWrite s d).flags 1 = 0 := by
  rw [onWrite_enable_rejected s d ha hb hp hd]
  obtain ⟨_, _, h2, h3, _, h5⟩ := applyAlarmOnDisconnect_rest s d
  exact ⟨h3, h2, h5, (applyAlarmOnDisconnect_bit1 s d).trans hb⟩

/-- C6 fails on the code: staging the one-byte secret `0x00` passes the
`saved_pin.empty()` guard, and enabling the lock then commits the empty C string.
Bit 1 is set while the StoredSecret is the empty string; after a disconnect the next
controller connects unauthorized and is authorized by an empty PIN-Auth write. -/
theorem C6_lock_enabled_with_empty_secret :
    bit (run boot lockWithZeroByte).flags 1 = 1 ∧
    storedSecret (run boot lockWithZeroByte) = some (PrefValue.string []) ∧
    (run boot (lockWithZeroByte ++ [Event.disconnect, Event.connect])).is_auth = false ∧
    (run boot (lockWithZeroByte ++
      [Event.disconnect, Event.connect, Event.writePin []])).is_auth = true := by
  decide

theorem persistedFlags_publish (s : Device) : persistedFlags (publish s) = s.flags := by
  simp [persistedFlags, publish, Preferences.getULong64, Preferences.putULong64]

theorem storedSecret_publish (s : Device) : storedSecret (publish s) = storedSecret s := by
  simp [storedSecret, publish, Preferences.putULong64]

theorem flags_publish (s : Device) : (publish s).flags = s.flags := rfl

theorem LockInv_onWrite (s : Device) (d : Bytes) (h : LockInv s) :
    LockInv (AlertPolicyCallbacks.onWrite s d) := by
  have h1 := applyAlarmOnDisconnect_bit1 s d
  obtain ⟨_, _, h2, h3, _, _⟩ := applyAlarmOnDisconnect_rest s d
  have hinv1 : LockInv (applyAlarmOnDisconnect s d) := by
    refine ⟨fun hb => ?_, fun hb => ?_⟩
    · rw [h1] at hb
      simpa [storedSecret, h3] using h.1 hb
    · simp only [persistedFlags, h3] at hb
      simpa [storedSecret, h3] using h.2 hb
  unfold AlertPolicyCallbacks.onWrite
  split
  · exact h
  · simp only []
    split
    · refine ⟨fun hb => ?_, fun hb => ?_⟩
      · rw [flags_publish, bit1_clear1] at hb
        exact absurd hb (by decide)
      · rw [persistedFlags_publish, bit1_clear1] at hb
        exact absurd hb (by decide)
    · split
      · split
        · exact hinv1
        · refine ⟨fun _ => ?_, fun _ => ?_⟩ <;>
            (rw [storedSecret_publish]; simp [storedSecret, Preferences.putString])
      · refine ⟨fun hb => ?_, fun hb => ?_⟩
        · rw [storedSecret_publish]
          exact hinv1.1 hb
        · rw [storedSecret_publish]
          rw [persistedFlags_publish] at hb
          exact hinv1.1 hb

theorem LockInv_step (s : Device) (e : Event) (h : LockInv s) : LockInv (step s e) := by
  cases e with
  | connect =>
    have hc : (onConnect s).flags = s.flags ∧ (onConnect s).config = s.config := by
      unfold onConnect
      split <;> exact ⟨rfl, rfl⟩
    simpa [step, LockInv, storedSecret, persistedFlags, hc.1, hc.2] using h
  | disconnect =>
    have hc : (onDisconnect s).flags = s.flags ∧ (onDisconnect s).config = s.config := by
      unfold onDisconnect start_alarm
      simp only []
      split <;> exact ⟨rfl, rfl⟩
    simpa [step, LockInv, storedSecret, persistedFlags, hc.1, hc.2] using h
  | writePolicy d => exact LockInv_onWrite _ d h
  | readPolicy => exact h
  | writeAlert d =>
    have hc : (ToggleAlertCallbacks.onWrite s d).flags = s.flags ∧
        (ToggleAlertCallbacks.onWrite s d).config = s.config := by
      unfold ToggleAlertCallbacks.onWrite start_alarm end_alarm
      repeat (first | exact ⟨rfl, rfl⟩ | split)
    simpa [step, LockInv, storedSecret, persistedFlags, hc.1, hc.2] using h
  | writePin d =>
    obtain ⟨hf, _, hc, _, _⟩ := PINAuth_rest s d
    simpa [step, LockInv, storedSecret, persistedFlags, hf, hc] using h
  | reboot => exact ⟨h.2, h.2⟩

/-- The part of C6 that the code keeps: in every state reachable from a boot with an
empty store, a set device-lock bit comes with a StoredSecret (possibly empty). -/
theorem lock_bit_implies_secret_present (es : List Event) :
    bit (run boot es).flags 1 = 1 → storedSecret (run boot es) ≠ none := by
  have hrun : ∀ (es : List Event) (s : Device), LockInv s → LockInv (run s es) := by
    intro es
    induction es with
    | nil => exact fun s hs => hs
    | cons e es ih => exact fun s hs => ih (step s e) (LockInv_step s e hs)
  have hboot : LockInv boot := ⟨by decide, by decide⟩
  exact (hrun es boot hboot).1

/-- C7: an authorized write containing "device-lock:0" while bit 1 is set clears
bit 1 in memory and in the persisted flags (which equal the in-memory word) and
leaves no key "device-pin" in the store, whether or not one was there. -/
theorem C7_lock_disable_deletes_secret (s : Device) (d : Bytes) (ha : s.is_auth = true)
    (hb : bit s.flags 1 = 1) (hd : Contains d "device-lock:0") :
    bit (AlertPolicyCallbacks.onWrite s d).flags 1 = 0 ∧
    bit (persistedFlags (AlertPolicyCallbacks.onWrite s d)) 1 = 0 ∧
    (AlertPolicyCallbacks.onWrite s d).config "flags"
      = some (PrefValue.u64 (AlertPolicyCallbacks.onWrite s d).flags) ∧
    storedSecret (AlertPolicyCallbacks.onWrite s d) = none := by
  rw [onWrite_disable s d ha hb hd]
  refine ⟨bit1_clear1 _, ?_, ?_, ?_⟩
  · rw [persistedFlags_publish]
    exact bit1_clear1 _
  · simp [publish, Preferences.putULong64]
  · rw [storedSecret_publish]
    unfold storedSecret
    cases hk : s.config.isKey "device-pin"
    · simpa [Preferences.isKey] using hk
    · simp [Preferences.remove]

/-- Witness of C7: disabling the lock that was enabled with "1234". -/
theorem C7_lock_disable_deletes_secret_witness :
    lockedAuthorized.is_auth = true ∧ bit lockedAuthorized.flags 1 = 1 ∧
    storedSecret lockedAuthorized = some (PrefValue.string (str "1234")) ∧
    bit (AlertPolicyCallbacks.onWrite lockedAuthorized (str "device-lock:0")).flags 1 = 0 ∧
    storedSecret (AlertPolicyCallbacks.onWrite lockedAuthorized (str "device-lock:0"))
      = none :=
  ⟨by decide, by decide, by decide,
    (C7_lock_disable_deletes_secret lockedAuthorized (str "device-lock:0") (by decide)
      (by decide) ((found_iff _ _).mp (by decide))).1,
    (C7_lock_disable_deletes_secret lockedAuthorized (str "device-lock:0") (by decide)
      (by decide) ((found_iff _ _).mp (by decide))).2.2.2⟩

/-! ### Session events -/

/-- C8: a disconnect event leaves `is_auth` false and `flags` unchanged; with bit 0
set the alarm is armed afterwards whatever it was, with bit 0 clear the armed value
is kept. -/
theorem C8_disconnect (s : Device) :
    (onDisconnect s).is_auth = false ∧
    (onDisconnect s).flags = s.flags ∧
    (bit s.flags 0 = 1 → (onDisconnect s).is_alarm_enable = true) ∧
    (bit s.flags 0 = 0 → (onDisconnect s).is_alarm_enable = s.is_alarm_enable) := by
  unfold onDisconnect start_alarm
  refine ⟨rfl, ?_, ?_, ?_⟩
  · simp only []
    split <;> rfl
  · intro hb
    simp [hb]
  · intro hb
    simp [hb]

/-- Witness of C8: the connected fresh device (bit 0 set, not armed) is armed and
unauthorized after the disconnect. -/
theorem C8_disconnect_witness :
    bit connectedFresh.flags 0 = 1 ∧ connectedFresh.is_alarm_enable = false ∧
    (onDisconnect connectedFresh).is_alarm_enable = true ∧
    (onDisconnect connectedFresh).is_auth = false :=
  ⟨by decide, by decide, (C8_disconnect connectedFresh).2.2.1 (by decide),
    (C8_disconnect connectedFresh).1⟩

theorem AlertPolicy_onWrite_is_auth (s : Device) (d : Bytes) :
    (AlertPolicyCallbacks.onWrite s d).is_auth = s.is_auth := by
  have h := (applyAlarmOnDisconnect_rest s d).1
  unfold AlertPolicyCallbacks.onWrite
  split
  · rfl
  · simp only []
    split
    · split <;> exact h
    · split
      · split <;> exact h
      · exact h

theorem ToggleAlert_onWrite_is_auth (s : Device) (d : Bytes) :
    (ToggleAlertCallbacks.onWrite s d).is_auth = s.is_auth := by
  unfold ToggleAlertCallbacks.onWrite start_alarm end_alarm
  repeat (first | rfl | split)

/-- C9: once `is_auth` is true, it is still true after a connect, an
Alert-Policy-Config write or read, a Make-Alert write or a PIN-Auth write, whatever
the payload; only a disconnect (or a power cycle) ends the authorization. -/
theorem C9_authorized_until_disconnect (s : Device) (e : Event) (ha : s.is_auth = true)
    (hd : e ≠ Event.disconnect) (hr : e ≠ Event.reboot) :
    (step s e).is_auth = true := by
  cases e with
  | connect =>
    show (onConnect s).is_auth = true
    unfold onConnect
    split
    · rfl
    · exact ha
  | disconnect => exact absurd rfl hd
  | writePolicy d =>
    show (AlertPolicyCallbacks.onWrite _ d).is_auth = true
    rw [AlertPolicy_onWrite_is_auth]
    exact ha
  | readPolicy => exact ha
  | writeAlert d =>
    show (ToggleAlertCallbacks.onWrite s d).is_auth = true
    rw [ToggleAlert_onWrite_is_auth]
    exact ha
  | writePin d =>
    show (PINAuthCallbacks.onWrite s d).is_auth = true
    rw [PINAuth_is_auth, ha]
    rfl
  | reboot => exact absurd rfl hr

/-- Witness of C9: a wrong PIN presented by the authorized controller of the locked
device does not end its authorization. -/
theorem C9_authorized_until_disconnect_witness :
    lockedAuthorized.is_auth = true ∧
    (step lockedAuthorized (Event.writePin (str "wrong"))).is_auth = true :=
  ⟨by decide,
    C9_authorized_until_disconnect lockedAuthorized (Event.writePin (str "wrong"))
      (by decide) (fun h => Event.noConfusion h) (fun h => Event.noConfusion h)⟩

theorem flag_text_eq (f g : Nat) :
    flag_text f g = str "alarm-on-disconnect:" ++ [48 + bit f 0] ++ str ";device-lock:"
      ++ [48 + bit f 1] ++ str ";" := by
  unfold flag_text
  rcases bit_cases f 0 with h0 | h0 <;> rcases bit_cases f 1 with h1 | h1 <;>
    simp only [h0, h1] <;> decide

/-- C11: at every call site (`flag_text(flags)` with the global `flags`) the text is
"alarm-on-disconnect:" b0 ";device-lock:" b1 ";" with b0, b1 the decimal digits of
bit 0 and bit 1; it depends on no other bit, and a read of Alert-Policy-Config sets
the characteristic to this text and changes nothing else. -/
theorem C11_flag_text_format (f : Nat) (s : Device) :
    flag_text f f = str "alarm-on-disconnect:" ++ [48 + bit f 0] ++ str ";device-lock:"
      ++ [48 + bit f 1] ++ str ";" ∧
    (∀ g : Nat, bit g 0 = bit f 0 → bit g 1 = bit f 1 → flag_text g g = flag_text f f) ∧
    (AlertPolicyCallbacks.onRead s).policy_value = flag_text s.flags s.flags ∧
    AlertPolicyCallbacks.onRead s = { s with policy_value := flag_text s.flags s.flags } := by
  refine ⟨flag_text_eq f f, ?_, rfl, rfl⟩
  intro g h0 h1
  rw [flag_text_eq, flag_text_eq, h0, h1]

/-- Witness of C11: flags `0b01` serializes to "alarm-on-disconnect:1;device-lock:0;",
and so does `0b101`, which differs in bit 2 only. -/
theorem C11_flag_text_format_witness :
    flag_text 1 1 = str "alarm-on-disconnect:1;device-lock:0;" ∧
    flag_text 5 5 = flag_text 1 1 :=
  ⟨(C11_flag_text_format 1 boot).1.trans (by decide),
    (C11_flag_text_format 1 boot).2.1 5 (by decide) (by decide)⟩

/-! ### Make-Alert -/

/-- C13: a Make-Alert write negates `is_alarm_enable` exactly when the session is
authorized and the payload is the single byte `'1'` (0x31) or 0x01; otherwise the
armed value is kept.  Flags, authorization, PendingSecret and the store are never
changed. -/
theorem C13_toggle_alert (s : Device) (d : Bytes) :
    ((s.is_auth = true ∧ (d = [49] ∨ d = [1])) →
      (ToggleAlertCallbacks.onWrite s d).is_alarm_enable = !s.is_alarm_enable) ∧
    (¬ (s.is_auth = true ∧ (d = [49] ∨ d = [1])) →
      (ToggleAlertCallbacks.onWrite s d).is_alarm_enable = s.is_alarm_enable) ∧
    (ToggleAlertCallbacks.onWrite s d).flags = s.flags ∧
    (ToggleAlertCallbacks.onWrite s d).is_auth = s.is_auth ∧
    (ToggleAlertCallbacks.onWrite s d).saved_pin = s.saved_pin ∧
    (ToggleAlertCallbacks.onWrite s d).config = s.config := by
  refine ⟨?_, ?_, ?_, ?_, ?_, ?_⟩
  · rintro ⟨ha, rfl | rfl⟩ <;>
      cases hal : s.is_alarm_enable <;>
      simp [ToggleAlertCallbacks.onWrite, start_alarm, end_alarm, ha, hal]
  · intro hn
    cases ha : s.is_auth
    · simp [ToggleAlertCallbacks.onWrite, ha]
    · have hd : ¬ (d = [49] ∨ d = [1]) := fun h => hn ⟨ha, h⟩
      unfold ToggleAlertCallbacks.onWrite
      simp only [ha]
      match d with
      | [] => rfl
      | [b] =>
        have hb : (b == 49 || b == 1) = false := by
          cases hb : (b == 49 || b == 1)
          · rfl
          · exfalso
            apply hd
            simpa using hb
        simp [hb]
      | _ :: _ :: _ => rfl
  all_goals
    unfold ToggleAlertCallbacks.onWrite start_alarm end_alarm
    repeat (first | rfl | split)

/-- Witness of C13: the byte `'1'` from the authorized controller arms the alarm, the
two-byte payload "11" does not. -/
theorem C13_toggle_alert_witness :
    connectedFresh.is_auth = true ∧ connectedFresh.is_alarm_enable = false ∧
    (ToggleAlertCallbacks.onWrite connectedFresh [49]).is_alarm_enable = true ∧
    (ToggleAlertCallbacks.onWrite connectedFresh [49, 49]).is_alarm_enable = false :=
  ⟨by decide, by decide,
    (C13_toggle_alert connectedFresh [49]).1 ⟨by decide, Or.inl rfl⟩,
    (C13_toggle_alert connectedFresh [49, 49]).2.1 (by decide)⟩

/-! ### PIN-Auth without a StoredSecret -/

/-- C15: from a boot with an empty store (flags `0b1`, unauthorized, not armed, no
PendingSecret) the scenario gives: authorized after the connect; flags still `0b01`
and no StoredSecret after the first lock request; flags `0b11` and StoredSecret
"9999" after the second; armed, unauthorized and bit 0 still set after the
disconnect. -/
theorem C15_end_to_end :
    (boot.flags = 1 ∧ boot.is_auth = false ∧ boot.is_alarm_enable = false ∧
      boot.saved_pin = [] ∧ storedSecret boot = none) ∧
    (run boot (endToEnd.take 1)).is_auth = true ∧
    ((run boot (endToEnd.take 2)).flags = 1 ∧
      storedSecret (run boot (endToEnd.take 2)) = none) ∧
    ((run boot (endToEnd.take 4)).flags = 3 ∧
      storedSecret (run boot (endToEnd.take 4)) = some (PrefValue.string (str "9999"))) ∧
    ((run boot endToEnd).is_alarm_enable = true ∧ (run boot endToEnd).is_auth = false ∧
      bit (run boot endToEnd).flags 0 = 1) := by
  decide

/-! ### The four masks, bit by bit -/

theorem bit_and_mask (f m i : Nat) (h : m.testBit i = true) : bit (f &&& m) i = bit f i := by
  rw [bit_land, bit_eq_toNat, h, Bool.and_true]

theorem bit_or_mask (f m i : Nat) (h : m.testBit i = false) : bit (f ||| m) i = bit f i := by
  rw [bit_lor, bit_eq_toNat, h, Bool.or_false]

theorem bit0_clear0 (f : Nat) : bit (f &&& u64_of_int (bnot (shl 1 0))) 0 = 0 := by
  have h : Nat.testBit 18446744073709551614 0 = false := by decide
  rw [mask_clear0, bit_land, h, Bool.and_false]
  rfl

theorem bit0_set0 (f : Nat) : bit (f ||| u64_of_int (shl 1 0)) 0 = 1 := by
  have h : Nat.testBit 1 0 = true := by decide
  rw [mask_set0, bit_lor, h, Bool.or_true]
  rfl

theorem bit0_clear1 (f : Nat) : bit (f &&& u64_of_int (bnot (shl 1 1))) 0 = bit f 0 := by
  rw [mask_clear1]
  exact bit_and_mask f _ 0 (by decide)

theorem bit0_set1 (f : Nat) : bit (f ||| u64_of_int (shl 1 1)) 0 = bit f 0 := by
  rw [mask_set1]
  exact bit_or_mask f _ 0 (by decide)

theorem masks_high_bits :
    ∀ i, i < 64 → 2 ≤ i →
      Nat.testBit (u64_of_int (bnot (shl 1 0))) i = true ∧
      Nat.testBit (u64_of_int (bnot (shl 1 1))) i = true ∧
      Nat.testBit (u64_of_int (shl 1 0)) i = false ∧
      Nat.testBit (u64_of_int (shl 1 1)) i = false := by
  rw [mask_clear0, mask_clear1, mask_set0, mask_set1]
  decide

/-! ### The branches of the Alert-Policy-Config write -/

theorem applyAlarmOnDisconnect_cases (s : Device) (d : Bytes) :
    (bit s.flags 0 = 1 ∧ Contains d "alarm-on-disconnect:0" ∧
      applyAlarmOnDisconnect s d
        = { s with flags := s.flags &&& u64_of_int (bnot (shl 1 0)) }) ∨
    (bit s.flags 0 = 0 ∧ Contains d "alarm-on-disconnect:1" ∧
      applyAlarmOnDisconnect s d = { s with flags := s.flags ||| u64_of_int (shl 1 0) }) ∨
    (¬ (bit s.flags 0 = 1 ∧ Contains d "alarm-on-disconnect:0") ∧
      ¬ (bit s.flags 0 = 0 ∧ Contains d "alarm-on-disconnect:1") ∧
      applyAlarmOnDisconnect s d = s) := by
  simp only [← found_iff]
  unfold applyAlarmOnDisconnect
  rcases bit_cases s.flags 0 with hb | hb <;>
    cases h0 : found d "alarm-on-disconnect:0" <;>
    cases h1 : found d "alarm-on-disconnect:1" <;> simp [hb]

/-- The remaining branch (line 145 reached with no device-lock change). -/
theorem onWrite_plain (s : Device) (d : Bytes) (ha : s.is_auth = true)
    (h0 : ¬ (bit s.flags 1 = 1 ∧ Contains d "device-lock:0"))
    (h1 : ¬ (bit s.flags 1 = 0 ∧ Contains d "device-lock:1")) :
    AlertPolicyCallbacks.onWrite s d = publish (applyAlarmOnDisconnect s d) := by
  have hb := applyAlarmOnDisconnect_bit1 s d
  simp only [← found_iff] at h0 h1
  unfold AlertPolicyCallbacks.onWrite
  simp only [ha, hb]
  rcases bit_cases s.flags 1 with hbit | hbit <;>
    cases hf0 : found d "device-lock:0" <;>
    cases hf1 : found d "device-lock:1" <;> simp [hbit, hf0, hf1] at h0 h1 ⊢

/-- An authorized write ends in exactly one of four ways: lock disabled, lock request
rejected, lock enabled, or no device-lock change. -/
theorem onWrite_cases (s : Device) (d : Bytes) (ha : s.is_auth = true) :
    (bit s.flags 1 = 1 ∧ Contains d "device-lock:0" ∧
      AlertPolicyCallbacks.onWrite s d =
        publish { applyAlarmOnDisconnect s d with
          config := if s.config.isKey "device-pin" then s.config.remove "device-pin"
            else s.config
          flags := (applyAlarmOnDisconnect s d).flags &&& u64_of_int (bnot (shl 1 1)) }) ∨
    (bit s.flags 1 = 0 ∧ Contains d "device-lock:1" ∧ s.saved_pin = [] ∧
      AlertPolicyCallbacks.onWrite s d = applyAlarmOnDisconnect s d) ∨
    (bit s.flags 1 = 0 ∧ Contains d "device-lock:1" ∧ s.saved_pin ≠ [] ∧
      AlertPolicyCallbacks.onWrite s d =
        publish { applyAlarmOnDisconnect s d with
          config := s.config.putString "device-pin" (c_str s.saved_pin)
          flags := (applyAlarmOnDisconnect s d).flags ||| u64_of_int (shl 1 1) }) ∨
    (¬ (bit s.flags 1 = 1 ∧ Contains d "device-lock:0") ∧
      ¬ (bit s.flags 1 = 0 ∧ Contains d "device-lock:1") ∧
      AlertPolicyCallbacks.onWrite s d = publish (applyAlarmOnDisconnect s d)) := by
  by_cases h0 : bit s.flags 1 = 1 ∧ Contains d "device-lock:0"
  · exact Or.inl ⟨h0.1, h0.2, onWrite_disable s d ha h0.1 h0.2⟩
  · by_cases h1 : bit s.flags 1 = 0 ∧ Contains d "device-lock:1"
    · by_cases hp : s.saved_pin = []
      · exact Or.inr (Or.inl ⟨h1.1, h1.2, hp, onWrite_enable_rejected s d ha h1.1 hp h1.2⟩)
      · exact Or.inr (Or.inr (Or.inl
          ⟨h1.1, h1.2, hp, onWrite_enable_accepted s d ha h1.1 hp h1.2⟩))
    · exact Or.inr (Or.inr (Or.inr ⟨h0, h1, onWrite_plain s d ha h0 h1⟩))

/-! ### What a directive does to its bit -/

theorem aod_bit0_off (s : Device) (d : Bytes) (h0 : Contains d "alarm-on-disconnect:0")
    (h1 : ¬ Contains d "alarm-on-disconnect:1") :
    bit (applyAlarmOnDisconnect s d).flags 0 = 0 := by
  rcases applyAlarmOnDisconnect_cases s d with ⟨_, _, h⟩ | ⟨_, hc, _⟩ | ⟨hn, _, h⟩
  · rw [h]
    exact bit0_clear0 _
  · exact absurd hc h1
  · rw [h]
    rcases bit_cases s.flags 0 with hb | hb
    · exact hb
    · exact absurd ⟨hb, h0⟩ hn

theorem aod_bit0_on (s : Device) (d : Bytes) (h1 : Contains d "alarm-on-disconnect:1")
    (h0 : ¬ Contains d "alarm-on-disconnect:0") :
    bit (applyAlarmOnDisconnect s d).flags 0 = 1 := by
  rcases applyAlarmOnDisconnect_cases s d with ⟨_, hc, _⟩ | ⟨_, _, h⟩ | ⟨_, hn, h⟩
  · exact absurd hc h0
  · rw [h]
    exact bit0_set0 _
  · rw [h]
    rcases bit_cases s.flags 0 with hb | hb
    · exact absurd ⟨hb, h1⟩ hn
    · exact hb

theorem aod_high (s : Device) (d : Bytes) (i : Nat) (h2 : 2 ≤ i) (h64 : i < 64) :
    bit (applyAlarmOnDisconnect s d).flags i = bit s.flags i := by
  obtain ⟨m1, _, m3, _⟩ := masks_high_bits i h64 h2
  rcases applyAlarmOnDisconnect_cases s d with ⟨_, _, h⟩ | ⟨_, _, h⟩ | ⟨_, _, h⟩
  · rw [h]
    exact bit_and_mask _ _ i m1
  · rw [h]
    exact bit_or_mask _ _ i m3
  · rw [h]

theorem onWrite_bit0 (s : Device) (d : Bytes) (ha : s.is_auth = true) :
    bit (AlertPolicyCallbacks.onWrite s d).flags 0
      = bit (applyAlarmOnDisconnect s d).flags 0 := by
  rcases onWrite_cases s d ha with ⟨_, _, h⟩ | ⟨_, _, _, h⟩ | ⟨_, _, _, h⟩ | ⟨_, _, h⟩
  · rw [h]
    exact bit0_clear1 _
  · rw [h]
  · rw [h]
    exact bit0_set1 _
  · rw [h]
    rfl

theorem lock_bit_off (s : Device) (d : Bytes) (ha : s.is_auth = true)
    (h0 : Contains d "device-lock:0") (h1 : ¬ Contains d "device-lock:1") :
    bit (AlertPolicyCallbacks.onWrite s d).flags 1 = 0 := by
  rcases onWrite_cases s d ha with ⟨_, _, h⟩ | ⟨_, hc, _⟩ | ⟨_, hc, _⟩ | ⟨hn, _, h⟩
  · rw [h]
    exact bit1_clear1 _
  · exact absurd hc h1
  · exact absurd hc h1
  · rw [h]
    show bit (applyAlarmOnDisconnect s d).flags 1 = 0
    rw [applyAlarmOnDisconnect_bit1]
    rcases bit_cases s.flags 1 with hb | hb
    · exact hb
    · exact absurd ⟨hb, h0⟩ hn

theorem lock_bit_on (s : Device) (d : Bytes) (ha : s.is_auth = true)
    (h1 : Contains d "device-lock:1") (h0 : ¬ Contains d "device-lock:0") :
    bit (AlertPolicyCallbacks.onWrite s d).flags 1 = 1 ∨
    (bit (AlertPolicyCallbacks.onWrite s d).flags 1 = 0 ∧ s.saved_pin = []) := by
  rcases onWrite_cases s d ha with ⟨_, hc, _⟩ | ⟨hb, _, hp, h⟩ | ⟨_, _, _, h⟩ | ⟨_, hn, h⟩
  · exact absurd hc h0
  · right
    rw [h, applyAlarmOnDisconnect_bit1]
    exact ⟨hb, hp⟩
  · left
    rw [h]
    exact bit1_set1 _
  · left
    rw [h]
    show bit (applyAlarmOnDisconnect s d).flags 1 = 1
    rw [applyAlarmOnDisconnect_bit1]
    rcases bit_cases s.flags 1 with hb | hb
    · exact absurd ⟨hb, h1⟩ hn
    · exact hb

/-- C12: writing the serialized text of any flags value `f` to Alert-Policy-Config,
authorized and with a non-empty PendingSecret, leaves bit 0 and bit 1 of the flags
equal to those of `f`, whatever the flags were. -/
theorem C12_round_trip (s : Device) (f : Nat) (ha : s.is_auth = true)
    (hp : s.saved_pin ≠ []) :
    bit (AlertPolicyCallbacks.onWrite s (flag_text f f)).flags 0 = bit f 0 ∧
    bit (AlertPolicyCallbacks.onWrite s (flag_text f f)).flags 1 = bit f 1 := by
  rw [flag_text_eq, onWrite_bit0 s _ ha]
  have yes : ∀ (d : Bytes) (kw : String), found d kw = true → Contains d kw :=
    fun d kw h => (found_iff d kw).mp h
  have no : ∀ (d : Bytes) (kw : String), found d kw = false → ¬ Contains d kw :=
    fun d kw h hc => by
      rw [(found_iff d kw).mpr hc] at h
      exact absurd h (by decide)
  have lock1 : ∀ d : Bytes, Contains d "device-lock:1" → ¬ Contains d "device-lock:0" →
      bit (AlertPolicyCallbacks.onWrite s d).flags 1 = 1 := by
    intro d h1 h0
    rcases lock_bit_on s d ha h1 h0 with h | ⟨_, h⟩
    · exact h
    · exact absurd h hp
  rcases bit_cases f 0 with h0 | h0 <;> rcases bit_cases f 1 with h1 | h1 <;>
    rw [h0, h1] <;> constructor
  · exact aod_bit0_off s _ (yes _ _ (by decide)) (no _ _ (by decide))
  · exact lock_bit_off s _ ha (yes _ _ (by decide)) (no _ _ (by decide))
  · exact aod_bit0_off s _ (yes _ _ (by decide)) (no _ _ (by decide))
  · exact lock1 _ (yes _ _ (by decide)) (no _ _ (by decide))
  · exact aod_bit0_on s _ (yes _ _ (by decide)) (no _ _ (by decide))
  · exact lock_bit_off s _ ha (yes _ _ (by decide)) (no _ _ (by decide))
  · exact aod_bit0_on s _ (yes _ _ (by decide)) (no _ _ (by decide))
  · exact lock1 _ (yes _ _ (by decide)) (no _ _ (by decide))

/-- Witness of C12: on the device locked with "1234" (flags `0b11`), writing the text
of `0b00` clears both bits. -/
theorem C12_round_trip_witness :
    lockedAuthorized.is_auth = true ∧ lockedAuthorized.saved_pin ≠ [] ∧
    lockedAuthorized.flags = 3 ∧
    bit (AlertPolicyCallbacks.onWrite lockedAuthorized (flag_text 0 0)).flags 0 = bit 0 0 ∧
    bit (AlertPolicyCallbacks.onWrite lockedAuthorized (flag_text 0 0)).flags 1 = bit 0 1 :=
  ⟨by decide, by decide, by decide,
    C12_round_trip lockedAuthorized 0 (by decide) (by decide)⟩

/-! ### Publication after an applied write -/

theorem publish_props (x : Device) :
    (publish x).policy_value = flag_text (publish x).flags (publish x).flags ∧
    (publish x).notify_count = x.notify_count + 1 ∧
    persistedFlags (publish x) = (publish x).flags ∧
    (publish x).config "flags" = some (PrefValue.u64 (publish x).flags) := by
  refine ⟨rfl, rfl, persistedFlags_publish x, ?_⟩
  simp [publish, Preferences.putULong64]

/-- C18: an authorized write that is not rejected (not a lock-enable request with
empty PendingSecret) ends with the characteristic holding the serialized text of the
resulting flags, exactly one more `notify()` call, and the persisted flags equal to
the resulting in-memory flags, whether or not a bit changed. -/
theorem C18_applied_write_publishes (s : Device) (d : Bytes) (ha : s.is_auth = true)
    (hnr : ¬ (bit s.flags 1 = 0 ∧ Contains d "device-lock:1" ∧ s.saved_pin = [])) :
    (AlertPolicyCallbacks.onWrite s d).policy_value
      = flag_text (AlertPolicyCallbacks.onWrite s d).flags
          (AlertPolicyCallbacks.onWrite s d).flags ∧
    (AlertPolicyCallbacks.onWrite s d).notify_count = s.notify_count + 1 ∧
    persistedFlags (AlertPolicyCallbacks.onWrite s d)
      = (AlertPolicyCallbacks.onWrite s d).flags ∧
    (AlertPolicyCallbacks.onWrite s d).config "flags"
      = some (PrefValue.u64 (AlertPolicyCallbacks.onWrite s d).flags) := by
  have hn : (applyAlarmOnDisconnect s d).notify_count = s.notify_count :=
    (applyAlarmOnDisconnect_rest s d).2.2.2.2.2
  rcases onWrite_cases s d ha with ⟨_, _, h⟩ | ⟨hb, hc, hp, _⟩ | ⟨_, _, _, h⟩ | ⟨_, _, h⟩
  · rw [h]
    obtain ⟨p1, p2, p3, p4⟩ := publish_props { applyAlarmOnDisconnect s d with
      config := if s.config.isKey "device-pin" then s.config.remove "device-pin"
        else s.config
      flags := (applyAlarmOnDisconnect s d).flags &&& u64_of_int (bnot (shl 1 1)) }
    exact ⟨p1, p2.trans (congrArg (· + 1) hn), p3, p4⟩
  · exact absurd ⟨hb, hc, hp⟩ hnr
  · rw [h]
    obtain ⟨p1, p2, p3, p4⟩ := publish_props { applyAlarmOnDisconnect s d with
      config := s.config.putString "device-pin" (c_str s.saved_pin)
      flags := (applyAlarmOnDisconnect s d).flags ||| u64_of_int (shl 1 1) }
    exact ⟨p1, p2.trans (congrArg (· + 1) hn), p3, p4⟩
  · rw [h]
    obtain ⟨p1, p2, p3, p4⟩ := publish_props (applyAlarmOnDisconnect s d)
    exact ⟨p1, p2.trans (congrArg (· + 1) hn), p3, p4⟩

/-- Witness of C18: a write that changes no bit ("alarm-on-disconnect:1" on flags
`0b01`) still notifies once and persists. -/
theorem C18_applied_write_publishes_witness :
    connectedFresh.is_auth = true ∧ connectedFresh.notify_count = 0 ∧
    (AlertPolicyCallbacks.onWrite connectedFresh (str "alarm-on-disconnect:1")).flags
      = connectedFresh.flags ∧
    (AlertPolicyCallbacks.onWrite connectedFresh (str "alarm-on-disconnect:1")).notify_count
      = connectedFresh.notify_count + 1 :=
  ⟨by decide, by decide, by decide,
    (C18_applied_write_publishes connectedFresh (str "alarm-on-disconnect:1") (by decide)
      (fun h => absurd ((found_iff _ _).mpr h.2.1) (by decide))).2.1⟩

/-! ### Bits 2 to 63 -/

/-- C20: an Alert-Policy-Config write, whatever the payload, the authorization and the
PendingSecret, leaves every bit `i` with `2 ≤ i < 64` of the flags word unchanged;
the four masks, built from `int` expressions and converted to 64 bits, are
`2^64 - 2`, `2^64 - 3`, `1` and `2`. -/
theorem C20_high_bits_unchanged (s : Device) (d : Bytes) (i : Nat) (h2 : 2 ≤ i)
    (h64 : i < 64) :
    bit (AlertPolicyCallbacks.onWrite s d).flags i = bit s.flags i ∧
    u64_of_int (bnot (shl 1 0)) = 2 ^ 64 - 2 ∧
    u64_of_int (bnot (shl 1 1)) = 2 ^ 64 - 3 ∧
    u64_of_int (shl 1 0) = 1 ∧
    u64_of_int (shl 1 1) = 2 := by
  refine ⟨?_, by decide, by decide, by decide, by decide⟩
  obtain ⟨_, m2, _, m4⟩ := masks_high_bits i h64 h2
  have haod := aod_high s d i h2 h64
  cases ha : s.is_auth
  · have hs : AlertPolicyCallbacks.onWrite s d = s := by
      simp [AlertPolicyCallbacks.onWrite, ha]
    rw [hs]
  · rcases onWrite_cases s d ha with ⟨_, _, h⟩ | ⟨_, _, _, h⟩ | ⟨_, _, _, h⟩ | ⟨_, _, h⟩
    · rw [h]
      exact (bit_and_mask _ _ i m2).trans haod
    · rw [h]
      exact haod
    · rw [h]
      exact (bit_or_mask _ _ i m4).trans haod
    · rw [h]
      exact haod

/-- Witness of C20: bit 2 of the flags word `0b111` survives a write that clears
bit 0 and bit 1. -/
theorem C20_high_bits_unchanged_witness :
    (2 ≤ 2 ∧ 2 < 64) ∧
    bit (AlertPolicyCallbacks.onWrite { lockedAuthorized with flags := 7 }
      (str "alarm-on-disconnect:0;device-lock:0;")).flags 2 = bit 7 2 :=
  ⟨by decide,
    (C20_high_bits_unchanged { lockedAuthorized with flags := 7 }
      (str "alarm-on-disconnect:0;device-lock:0;") 2 (by decide) (by decide)).1⟩

/-! ### The PIN gate over sequences of writes -/

theorem gate_step (s : Device) (e : Event) (ha : s.is_auth = false)
    (hw : e.isWrite = true)
    (hpin : ∀ d, e = Event.writePin d → c_str d ≠ s.config.getString "device-pin") :
    (step s e).is_auth = false ∧ (step s e).flags = s.flags ∧
    (step s e).config = s.config ∧ (step s e).is_alarm_enable = s.is_alarm_enable ∧
    (step s e).notify_count = s.notify_count := by
  cases e with
  | writePolicy d =>
    have hs : step s (Event.writePolicy d) = { s with policy_value := d } := by
      simp [step, AlertPolicyCallbacks.onWrite, ha]
    rw [hs]
    exact ⟨ha, rfl, rfl, rfl, rfl⟩
  | writeAlert d =>
    have hs : step s (Event.writeAlert d) = s := by
      simp [step, ToggleAlertCallbacks.onWrite, ha]
    rw [hs]
    exact ⟨ha, rfl, rfl, rfl, rfl⟩
  | writePin d =>
    obtain ⟨hf, hal, hc, _, hn⟩ := PINAuth_rest s d
    refine ⟨?_, hf, hc, hal, hn⟩
    show (PINAuthCallbacks.onWrite s d).is_auth = false
    rw [PINAuth_is_auth, ha, Bool.false_or]
    have hne := hpin d rfl
    simpa using fun h => hne h.symm
  | connect => exact absurd hw (by decide)
  | disconnect => exact absurd hw (by decide)
  | readPolicy => exact absurd hw (by decide)
  | reboot => exact absurd hw (by decide)

/-- C16: from an unauthorized state, after any finite sequence of writes to the three
characteristics in which no PIN-Auth payload, read as a C string, equals what
`getString("device-pin")` returns (the stored secret, or the empty string when the
key is absent), the session is still unauthorized and the in-memory flags, the store
(persisted flags and StoredSecret), the armed flag and the `notify()` count are
unchanged. -/
theorem C16_pin_gate (es : List Event) (s : Device) (ha : s.is_auth = false)
    (hw : ∀ e ∈ es, e.isWrite = true)
    (hpin : ∀ d, Event.writePin d ∈ es → c_str d ≠ s.config.getString "device-pin") :
    (run s es).is_auth = false ∧ (run s es).flags = s.flags ∧
    persistedFlags (run s es) = persistedFlags s ∧
    storedSecret (run s es) = storedSecret s ∧
    (run s es).config = s.config ∧
    (run s es).is_alarm_enable = s.is_alarm_enable ∧
    (run s es).notify_count = s.notify_count := by
  induction es generalizing s with
  | nil => exact ⟨ha, rfl, rfl, rfl, rfl, rfl, rfl⟩
  | cons e es ih =>
    obtain ⟨g1, g2, g3, g4, g5⟩ := gate_step s e ha (hw e (List.mem_cons_self e es))
      (fun d hd => hpin d (hd ▸ List.mem_cons_self e es))
    obtain ⟨i1, i2, i3, i4, i5, i6, i7⟩ := ih (step s e) g1
      (fun e' he' => hw e' (List.mem_cons_of_mem e he'))
      (fun d hd => g3 ▸ hpin d (List.mem_cons_of_mem e hd))
    refine ⟨i1, i2.trans g2, ?_, ?_, i5.trans g3, i6.trans g4, i7.trans g5⟩
    · refine i3.trans ?_
      unfold persistedFlags
      rw [g3]
    · refine i4.trans ?_
      unfold storedSecret
      rw [g3]

/-- Witness of C16: three writes with a wrong PIN against the device locked with
"1234". -/
theorem C16_pin_gate_witness :
    lockedWith1234.is_auth = false ∧
    (run lockedWith1234 [Event.writePin (str "0000"),
      Event.writePolicy (str "device-lock:0"), Event.writeAlert [49]]).is_auth = false ∧
    (run lockedWith1234 [Event.writePin (str "0000"),
      Event.writePolicy (str "device-lock:0"), Event.writeAlert [49]]).flags
      = lockedWith1234.flags :=
  have h := C16_pin_gate [Event.writePin (str "0000"),
      Event.writePolicy (str "device-lock:0"), Event.writeAlert [49]] lockedWith1234
    (by decide) (by decide)
    (by
      intro d hd
      simp only [List.mem_cons, Event.writePin.injEq, List.mem_singleton, reduceCtorEq,
        or_false, List.not_mem_nil] at hd
      subst hd
      decide)
  ⟨by decide, h.1, h.2.1⟩

/-! ### Persistence of the flags word -/

/-- Every event keeps the persisted flags equal to the in-memory flags, except an
authorized lock-enable request that is rejected for want of a PIN. -/
theorem persisted_flags_kept_unless_rejected (s : Device) (e : Event)
    (h : persistedFlags s = s.flags)
    (hnr : ∀ d, e = Event.writePolicy d →
      ¬ (s.is_auth = true ∧ bit s.flags 1 = 0 ∧ Contains d "device-lock:1" ∧
        s.saved_pin = [])) :
    persistedFlags (step s e) = (step s e).flags := by
  cases e with
  | connect =>
    have hc : (onConnect s).flags = s.flags ∧ (onConnect s).config = s.config := by
      unfold onConnect
      split <;> exact ⟨rfl, rfl⟩
    simpa [step, persistedFlags, hc.1, hc.2] using h
  | disconnect =>
    have hc : (onDisconnect s).flags = s.flags ∧ (onDisconnect s).config = s.config := by
      unfold onDisconnect start_alarm
      simp only []
      split <;> exact ⟨rfl, rfl⟩
    simpa [step, persistedFlags, hc.1, hc.2] using h
  | writePolicy d =>
    show persistedFlags (AlertPolicyCallbacks.onWrite { s with policy_value := d } d)
      = (AlertPolicyCallbacks.onWrite { s with policy_value := d } d).flags
    rcases Bool.eq_false_or_eq_true s.is_auth with ha | ha
    · rcases onWrite_cases { s with policy_value := d } d ha with
        ⟨_, _, hw⟩ | ⟨hb, hc, hp, _⟩ | ⟨_, _, _, hw⟩ | ⟨_, _, hw⟩
      · rw [hw]
        exact persistedFlags_publish _
      · exact absurd ⟨ha, hb, hc, hp⟩ (hnr d rfl)
      · rw [hw]
        exact persistedFlags_publish _
      · rw [hw]
        exact persistedFlags_publish _
    · have hs : AlertPolicyCallbacks.onWrite { s with policy_value := d } d
          = { s with policy_value := d } := by
        simp [AlertPolicyCallbacks.onWrite, ha]
      rw [hs]
      exact h
  | readPolicy => exact h
  | writeAlert d =>
    have hc : (ToggleAlertCallbacks.onWrite s d).flags = s.flags ∧
        (ToggleAlertCallbacks.onWrite s d).config = s.config := by
      unfold ToggleAlertCallbacks.onWrite start_alarm end_alarm
      repeat (first | exact ⟨rfl, rfl⟩ | split)
    simpa [step, persistedFlags, hc.1, hc.2] using h
  | writePin d =>
    obtain ⟨hf, _, hc, _, _⟩ := PINAuth_rest s d
    simpa [step, persistedFlags, hf, hc] using h
  | reboot => rfl

/-- C17 fails on the code: after first boot, a connect and the single write
"alarm-on-disconnect:0;device-lock:1" (no PIN staged) the in-memory flags are `0b00`
while the store still yields `0b01`; a reboot at that point loads `0b01`. -/
theorem C17_rejected_write_leaves_store_behind :
    (run boot rejectedCombinedWrite).flags = 0 ∧
    persistedFlags (run boot rejectedCombinedWrite) = 1 ∧
    (run boot (rejectedCombinedWrite ++ [Event.reboot])).flags = 1 := by
  decide

/-! ### Writing the same configuration twice -/

theorem AlertPolicy_onWrite_saved_pin (s : Device) (d : Bytes) :
    (AlertPolicyCallbacks.onWrite s d).saved_pin = s.saved_pin := by
  have h := (applyAlarmOnDisconnect_rest s d).2.2.1
  unfold AlertPolicyCallbacks.onWrite
  split
  · rfl
  · simp only []
    split
    · split <;> exact h
    · split
      · split <;> exact h
      · exact h

/-- A write whose directives all agree with the current bits (or ask for a lock that
cannot be enabled for want of a PIN) changes nothing, or only publishes. -/
theorem onWrite_settled (t : Device) (d : Bytes) (ht : t.is_auth = true)
    (a0 : Contains d "alarm-on-disconnect:0" → bit t.flags 0 = 0)
    (a1 : Contains d "alarm-on-disconnect:1" → bit t.flags 0 = 1)
    (l0 : Contains d "device-lock:0" → bit t.flags 1 = 0)
    (l1 : Contains d "device-lock:1" → bit t.flags 1 = 1 ∨ t.saved_pin = []) :
    AlertPolicyCallbacks.onWrite t d = t ∨ AlertPolicyCallbacks.onWrite t d = publish t := by
  have haod : applyAlarmOnDisconnect t d = t := by
    rcases applyAlarmOnDisconnect_cases t d with ⟨hb, hc, _⟩ | ⟨hb, hc, _⟩ | ⟨_, _, h⟩
    · rw [a0 hc] at hb
      exact absurd hb (by decide)
    · rw [a1 hc] at hb
      exact absurd hb (by decide)
    · exact h
  rcases onWrite_cases t d ht with ⟨hb, hc, _⟩ | ⟨_, _, _, h⟩ | ⟨hb, hc, hp, _⟩ | ⟨_, _, h⟩
  · rw [l0 hc] at hb
    exact absurd hb (by decide)
  · left
    rw [h, haod]
  · rcases l1 hc with h1 | h1
    · rw [h1] at hb
      exact absurd hb (by decide)
    · exact absurd h1 hp
  · right
    rw [h, haod]

/-- C19: for an authorized session and a payload that does not hold both the ":0" and
the ":1" directive of a key, the second of two identical Alert-Policy-Config writes
leaves the flags, the StoredSecret and the PendingSecret as the first one left
them. -/
theorem C19_config_write_idempotent (s : Device) (d : Bytes) (ha : s.is_auth = true)
    (hA : ¬ (Contains d "alarm-on-disconnect:0" ∧ Contains d "alarm-on-disconnect:1"))
    (hL : ¬ (Contains d "device-lock:0" ∧ Contains d "device-lock:1")) :
    (AlertPolicyCallbacks.onWrite (AlertPolicyCallbacks.onWrite s d) d).flags
      = (AlertPolicyCallbacks.onWrite s d).flags ∧
    storedSecret (AlertPolicyCallbacks.onWrite (AlertPolicyCallbacks.onWrite s d) d)
      = storedSecret (AlertPolicyCallbacks.onWrite s d) ∧
    (AlertPolicyCallbacks.onWrite (AlertPolicyCallbacks.onWrite s d) d).saved_pin
      = (AlertPolicyCallbacks.onWrite s d).saved_pin := by
  have ht : (AlertPolicyCallbacks.onWrite s d).is_auth = true :=
    (AlertPolicy_onWrite_is_auth s d).trans ha
  have hsp := AlertPolicy_onWrite_saved_pin s d
  have hsettled := onWrite_settled (AlertPolicyCallbacks.onWrite s d) d ht
    (fun h0 => (onWrite_bit0 s d ha).trans (aod_bit0_off s d h0 (fun h1 => hA ⟨h0, h1⟩)))
    (fun h1 => (onWrite_bit0 s d ha).trans (aod_bit0_on s d h1 (fun h0 => hA ⟨h0, h1⟩)))
    (fun h0 => lock_bit_off s d ha h0 (fun h1 => hL ⟨h0, h1⟩))
    (fun h1 => by
      rcases lock_bit_on s d ha h1 (fun h0 => hL ⟨h0, h1⟩) with h | ⟨_, h⟩
      · exact Or.inl h
      · exact Or.inr (hsp.trans h))
  rcases hsettled with h | h
  · rw [h]
    exact ⟨rfl, rfl, rfl⟩
  · rw [h]
    exact ⟨rfl, storedSecret_publish _, rfl⟩

/-- Witness of C19: enabling the lock with the staged secret "1234", twice. -/
theorem C19_config_write_idempotent_witness :
    stagedWith1234.is_auth = true ∧
    (AlertPolicyCallbacks.onWrite stagedWith1234 (str "device-lock:1")).flags = 3 ∧
    (AlertPolicyCallbacks.onWrite
      (AlertPolicyCallbacks.onWrite stagedWith1234 (str "device-lock:1"))
      (str "device-lock:1")).flags
      = (AlertPolicyCallbacks.onWrite stagedWith1234 (str "device-lock:1")).flags :=
  ⟨by decide, by decide,
    (C19_config_write_idempotent stagedWith1234 (str "device-lock:1") (by decide)
      (fun h => absurd ((found_iff _ _).mpr h.1) (by decide))
      (fun h => absurd ((found_iff _ _).mpr h.1) (by decide))).1⟩

end AlarmTag
